import Mathlib

/-!
Verification of `requests_forwarder.core` (requests-forwarder).

The module is a monkey-patching HTTP interception shim: `setup_proxy`
installs a replacement for `requests.Session.request` that reroutes
selected requests through a forwarder service, `disable_proxy` restores
the original entry point, and a small mutable `_state` dict holds the
configuration.

Shallow embedding:
  * the `_state` dict becomes the structure `ProxyState`;
  * the `requests.Session.request` attribute slot becomes the
    `sessionRequest` field of `Runtime`, whose values are drawn from the
    symbolic type `Hook` (the distinguished `Hook.patched` value stands
    for the function object `_patched_request`);
  * `setup_proxy` / `disable_proxy` become state-passing functions; a
    raised Python exception is returned as `some PyError` beside the
    (unchanged) state;
  * `_patched_request` becomes a pure function from the configuration and
    the call arguments to the delegated call (`Outcome.call hook method
    url kwargs`): the patched function always ends by invoking some stored
    request function, so its observable behaviour is exactly which
    function it invokes with which arguments;
  * `urllib.parse.urlparse(...).hostname` is modelled by
    `urlparseHostname` (both call sites of `urlparse` in the module use
    only the `hostname` attribute), and `urllib.parse.parse_qs` by
    `parse_qs`, each translated from the CPython stdlib algorithm;
    percent-decoding is modelled at the byte level (exact on ASCII input;
    a decoded byte is mapped directly to the code point of that value
    rather than through a UTF-8 re-decode).
-/

namespace ReqFwd

/-! ### Python value modelling -/

/-- Values that the `requests.Session.request` attribute slot can hold:
`None`, the module's `_patched_request` function, or any other function
object (indexed symbolically). -/
inductive Hook where
  | noneV : Hook
  | patched : Hook
  | fn (n : Nat) : Hook
deriving DecidableEq, Repr

/-- The only exception the module raises itself. -/
inductive PyError where
  | valueError : PyError
deriving DecidableEq, Repr

/-- A query-parameter value inside a params mapping or sequence: a Python
`str`, a list of `str` (produced by the `parse_qs` folding branch), or an
arbitrary other caller-supplied object (symbolic). -/
inductive PVal where
  | str (s : String) : PVal
  | strs (l : List String) : PVal
  | obj (n : Nat) : PVal
deriving DecidableEq, Repr

/-- The runtime shapes of the `params` keyword argument that
`_patched_request` branches on: a `dict`, a `list`/`tuple` of pairs, a
`bytes` query string, a `str` query string (which falls into the final
`else` branch, like any other unrecognised type), or some other object. -/
inductive Params where
  | dict (d : List (String × PVal)) : Params
  | seq (l : List (String × PVal)) : Params
  | bytes (b : String) : Params
  | text (s : String) : Params
  | other (n : Nat) : Params
deriving DecidableEq, Repr

/-- The keyword arguments of a `requests.Session.request` call, split into
the parts `_patched_request` inspects (`headers`, `params`) and the rest
(`data`, `json`, `files`, `timeout`, ...), which it forwards untouched and
which we carry opaquely as key-value pairs. -/
structure Kwargs where
  headers : Option (List (String × String))
  params : Option Params
  other : List (String × Nat)
deriving DecidableEq, Repr

/-- The observable result of `_patched_request`: it always delegates to a
stored request function with a method, a URL and keyword arguments. -/
inductive Outcome where
  | call (hook : Hook) (method : String) (url : String) (kw : Kwargs) : Outcome
deriving DecidableEq, Repr

/-! ### Python dict operations

Python `dict` assignment `d[k] = v` keeps the position of an existing key
and appends a fresh key at the end; lookup finds the (unique) binding.
We model dicts as association lists in insertion order. -/

/-- First-occurrence lookup in an association list (Python dict lookup;
on dicts built by the model every key occurs at most once). -/
def dlookup {β : Type} (d : List (String × β)) (k : String) : Option β :=
  match d with
  | [] => none
  | (k', v) :: rest => if k' = k then some v else dlookup rest k

/-- Python `d[k] = v`: overwrite in place if `k` is present, else append. -/
def dictSet {β : Type} (d : List (String × β)) (k : String) (v : β) :
    List (String × β) :=
  if d.any (fun p => p.1 = k) then
    d.map (fun p => if p.1 = k then (k, v) else p)
  else
    d ++ [(k, v)]

/-! ### `urllib.parse` modelling -/

/-- Hex digit value, as used by percent-decoding. -/
def hexVal (c : Char) : Option Nat :=
  if '0' ≤ c ∧ c ≤ '9' then some (c.toNat - '0'.toNat)
  else if 'a' ≤ c ∧ c ≤ 'f' then some (c.toNat - 'a'.toNat + 10)
  else if 'A' ≤ c ∧ c ≤ 'F' then some (c.toNat - 'A'.toNat + 10)
  else none

/-- Percent-decoding (`urllib.parse.unquote`): a `%` followed by two hex
digits becomes the byte of that value; otherwise characters pass through.
Exact on ASCII; bytes ≥ 0x80 become the code point of the byte value. -/
def unquoteChars : List Char → List Char
  | [] => []
  | '%' :: a :: b :: rest =>
    match hexVal a, hexVal b with
    | some x, some y => Char.ofNat (16 * x + y) :: unquoteChars rest
    | _, _ => '%' :: unquoteChars (a :: b :: rest)
  | c :: rest => c :: unquoteChars rest

/-- `urllib.parse.unquote_plus` as used by `parse_qsl`: `+` becomes a
space, then percent-decoding. -/
def unquotePlus (s : String) : String :=
  String.mk (unquoteChars (s.data.map (fun c => if c = '+' then ' ' else c)))

/-- Split a query chunk at its first `=` (Python `chunk.split('=', 1)`):
`none` when the chunk has no `=`. -/
def splitFirstEq : List Char → Option (List Char × List Char)
  | [] => none
  | '=' :: rest => some ([], rest)
  | c :: rest =>
    match splitFirstEq rest with
    | some (n, v) => some (c :: n, v)
    | none => none

/-- Split on the separator character `&` (Python `qs.split('&')`): an
empty string yields one empty chunk, consecutive separators yield empty
chunks. -/
def splitOnAmp : List Char → List (List Char)
  | [] => [[]]
  | '&' :: rest => [] :: splitOnAmp rest
  | c :: rest =>
    match splitOnAmp rest with
    | [] => [[c]]
    | h :: t => (c :: h) :: t

/-- `urllib.parse.parse_qsl` with default arguments (`keep_blank_values`
false, separator `&`): chunks without `=` and chunks whose value part is
empty are dropped; names and values are plus/percent-decoded. -/
def parse_qsl (qs : String) : List (String × String) :=
  (splitOnAmp qs.data).filterMap fun chunk =>
    if chunk = [] then none
    else
      match splitFirstEq chunk with
      | none => none
      | some (n, v) =>
        if v = [] then none
        else some (unquotePlus (String.mk n), unquotePlus (String.mk v))

/-- Aggregate one decoded pair into the dict-of-lists (Python
`parsed_result[name].append(value)` / fresh-key insertion). -/
def qsInsert (acc : List (String × List String)) (k v : String) :
    List (String × List String) :=
  if acc.any (fun p => p.1 = k) then
    acc.map (fun p => if p.1 = k then (p.1, p.2 ++ [v]) else p)
  else
    acc ++ [(k, [v])]

/-- `urllib.parse.parse_qs` with default arguments: parse the pairs, then
group values by name in first-appearance order. -/
def parse_qs (qs : String) : List (String × List String) :=
  (parse_qsl qs).foldl (fun acc kv => qsInsert acc kv.1 kv.2) []

/-- Leading/trailing C0-control-or-space stripping done by `urlsplit`. -/
def stripControlSpace (s : String) : String :=
  ((s.data.dropWhile (fun c => c.toNat ≤ 0x20)).reverse.dropWhile
    (fun c => c.toNat ≤ 0x20)).reverse.asString

/-- Characters allowed after the first character of a URL scheme. -/
def isSchemeChar (c : Char) : Bool :=
  c.isAlphanum || c = '+' || c = '-' || c = '.'

/-- Drop a leading `scheme:` when the prefix before the first `:` is a
well-formed scheme (`urlsplit`'s scheme detection). -/
def dropScheme (cs : List Char) : List Char :=
  match cs.findIdx? (fun c => c = ':') with
  | none => cs
  | some i =>
    if 0 < i ∧ (cs.headD ' ').isAlpha ∧ ((cs.take i).drop 1).all isSchemeChar
    then cs.drop (i + 1)
    else cs

/-- Extract the hostname from a netloc (`urllib`'s `_hostinfo`): the part
after the last `@`; inside `[...]` for bracketed hosts, else up to the
first `:`; lowercased; empty becomes `none`. -/
def hostnameOfNetloc (netloc : List Char) : Option String :=
  let hostinfo := ((netloc.reverse.takeWhile (fun c => c ≠ '@'))).reverse
  let host :=
    if hostinfo.any (fun c => c = '[') then
      ((hostinfo.dropWhile (fun c => c ≠ '[')).drop 1).takeWhile
        (fun c => c ≠ ']')
    else
      hostinfo.takeWhile (fun c => c ≠ ':')
  if host = [] then none else some (String.mk (host.map Char.toLower))

/-- Model of `urlparse(str(url)).hostname`: strip surrounding control
characters and spaces, delete tab/CR/LF, drop a scheme, take the netloc
after `//` up to the first `/`, `?` or `#`, and read its hostname.
`urlsplit` raises `ValueError` on a netloc with an unmatched `[` or `]`
(modelled as `Except.error ()`; the finer bracketed-host validation of
newer CPython is not modelled). Both call sites of `urlparse` in
`requests_forwarder.core` use only the `hostname` attribute. -/
def urlparseHostname (url : String) : Except Unit (Option String) :=
  let cs := (stripControlSpace url).data.filter
    (fun c => c ≠ '\t' ∧ c ≠ '\r' ∧ c ≠ '\n')
  let rest := dropScheme cs
  match rest with
  | '/' :: '/' :: tl =>
    let netloc := tl.takeWhile (fun c => c ≠ '/' ∧ c ≠ '?' ∧ c ≠ '#')
    if (netloc.any (fun c => c = '[')) ≠ (netloc.any (fun c => c = ']')) then
      Except.error ()
    else
      Except.ok (hostnameOfNetloc netloc)
  | _ => Except.ok none

/-! ### Constants and state (`requests_forwarder.core`) -/

/-- Historical default intercepted host. -/
def DEFAULT_API_HOST : String := "api.telegram.org"

/-- Default forwarder base URL. -/
def DEFAULT_PROXY_BASE_URL : String := "https://requests-forwarder.ir"

/-- Path appended to the base URL when building the forwarder target. -/
def FORWARD_ENDPOINT : String := "/forward"

/-- The module-level `_state` dict. `proxy_token` is `Option String`
because the slot starts as `None`; `forwarder_host` is `None` both
initially and when the base URL yields no hostname, as in the source. -/
structure ProxyState where
  original_request : Hook
  proxy_base_url : Option String
  proxy_token : Option String
  active : Bool
  intercept_all : Bool
  intercepted_hosts : Finset String
  forwarder_host : Option String
deriving DecidableEq

/-- The process: the `requests.Session.request` attribute slot plus the
module state. -/
structure Runtime where
  sessionRequest : Hook
  state : ProxyState
deriving DecidableEq

/-- The initial `_state` literal; `requests.Session.request` starts as
the library's own (non-patched) method. -/
def initialState : ProxyState :=
  { original_request := Hook.noneV
    proxy_base_url := none
    proxy_token := none
    active := false
    intercept_all := false
    intercepted_hosts := ∅
    forwarder_host := none }

/-- A fresh process: the unpatched request method installed, default state. -/
def initialRuntime : Runtime :=
  { sessionRequest := Hook.fn 0, state := initialState }

/-! ### `setup_proxy` and `disable_proxy` -/

/-- Arguments of `setup_proxy`. The token is `Option String` because
callers may pass `None`; `hosts`/`extra_hosts` distinguish `None` from an
explicit (possibly empty, hence falsy) list. -/
structure SetupArgs where
  proxy_token : Option String
  proxy_base_url : String
  hosts : Option (List String)
  intercept_all : Bool
  extra_hosts : Option (List String)
deriving DecidableEq, Repr

/-- Python truthiness of the token argument (`if not proxy_token`). -/
def tokenFalsy (t : Option String) : Bool :=
  t = none || t = some ""

/-- Python truthiness of an optional list argument (`if hosts:`). -/
def listTruthy (l : Option (List String)) : Bool :=
  match l with
  | none => false
  | some xs => xs ≠ []

/-- The `rstrip("/")` normalisation of the base URL. -/
def normalizeBase (s : String) : String :=
  String.mk (s.data.reverse.dropWhile (fun c => c = '/')).reverse

/-- The host-set resolution block of `setup_proxy`: empty when
`intercept_all`; else the given hosts (or the default host when the
argument is falsy), with `extra_hosts` merged in. -/
def resolveHosts (intercept_all : Bool) (hosts extra_hosts : Option (List String)) :
    Finset String :=
  if intercept_all then ∅
  else
    let base : Finset String :=
      if listTruthy hosts then (hosts.getD []).toFinset else {DEFAULT_API_HOST}
    if listTruthy extra_hosts then base ∪ (extra_hosts.getD []).toFinset else base

/-- The loop-guard hostname cache of `setup_proxy`: `urlparse(base_url)`
under `try/except`, yielding `None` on failure. -/
def forwarderHostOf (base_url : String) : Option String :=
  match urlparseHostname base_url with
  | Except.ok h => h
  | Except.error _ => none

/-- `setup_proxy`: raises `ValueError` on a falsy token (state untouched);
otherwise stores the resolved configuration, and — only when not already
active — saves the current request method and installs the patch. -/
def setup_proxy (a : SetupArgs) (rt : Runtime) : Runtime × Option PyError :=
  if tokenFalsy a.proxy_token then
    (rt, some PyError.valueError)
  else
    let base_url := normalizeBase a.proxy_base_url
    let resolved_hosts := resolveHosts a.intercept_all a.hosts a.extra_hosts
    let forwarder_host := forwarderHostOf base_url
    if rt.state.active then
      ({ rt with state :=
          { rt.state with
            proxy_base_url := some base_url
            proxy_token := a.proxy_token
            intercept_all := a.intercept_all
            intercepted_hosts := resolved_hosts
            forwarder_host := forwarder_host } }, none)
    else
      ({ sessionRequest := Hook.patched
         state :=
          { proxy_base_url := some base_url
            proxy_token := a.proxy_token
            intercept_all := a.intercept_all
            intercepted_hosts := resolved_hosts
            forwarder_host := forwarder_host
            original_request := rt.sessionRequest
            active := true } }, none)

/-- `disable_proxy`: when active, restore the saved request method, clear
the active flag and the saved reference; otherwise a warning-only no-op. -/
def disable_proxy (rt : Runtime) : Runtime :=
  if rt.state.active then
    { sessionRequest := rt.state.original_request
      state := { rt.state with active := false, original_request := Hook.noneV } }
  else
    rt

/-- `is_active`. -/
def is_active (st : ProxyState) : Bool :=
  st.active

/-- `get_proxy_url`: `_state.get("proxy_base_url") or ""` (both `None`
and the empty string collapse to `""`). -/
def get_proxy_url (st : ProxyState) : String :=
  (st.proxy_base_url).getD ""

/-- `get_intercepted_hosts`: a copy of the stored host set. -/
def get_intercepted_hosts (st : ProxyState) : Finset String :=
  st.intercepted_hosts

/-! ### `_patched_request` -/

/-- The interception decision of `_patched_request`, given the parsed
hostname: in intercept-all mode, anything whose hostname differs from the
cached forwarder host; otherwise membership in the host set (a `None`
hostname is never a member). -/
def shouldIntercept (st : ProxyState) (hostname : Option String) : Bool :=
  if st.intercept_all then
    decide (hostname ≠ st.forwarder_host)
  else
    match hostname with
    | some h => decide (h ∈ st.intercepted_hosts)
    | none => false

/-- The folding step applied to `parse_qs` output: a singleton value list
becomes the bare string, a longer list stays a list. -/
def foldQS (l : List (String × List String)) : List (String × PVal) :=
  l.map fun kv =>
    (kv.1, if kv.2.length = 1 then PVal.str (kv.2.headD "") else PVal.strs kv.2)

/-- The header-preparation block of `_patched_request`: clone the caller's
headers (an absent or empty mapping starts from the empty dict) and set
the `Authorization` bearer header, then the `X-Api-Token` header. -/
def injectAuth (hd : List (String × String)) (tok : String) :
    List (String × String) :=
  dictSet (dictSet hd "Authorization" ("Bearer " ++ tok)) "X-Api-Token" tok

/-- The params-merging block of `_patched_request`: inject the original
URL under `url`, branching on the runtime shape of `params`. The `bytes`
branch decodes with `parse_qs` and folds singleton value-lists to plain
strings; `str` and any other unrecognised shape fall to the final `else`,
which keeps only the `url` entry. -/
def mergeParams (p : Option Params) (url : String) : Params :=
  match p with
  | none => Params.dict [("url", PVal.str url)]
  | some (Params.dict d) => Params.dict (dictSet d "url" (PVal.str url))
  | some (Params.seq l) => Params.seq (l ++ [("url", PVal.str url)])
  | some (Params.bytes b) =>
    Params.dict (dictSet (foldQS (parse_qs b)) "url" (PVal.str url))
  | some (Params.text _) => Params.dict [("url", PVal.str url)]
  | some (Params.other _) => Params.dict [("url", PVal.str url)]

/-- The intercept branch of `_patched_request`: rewrite the URL to the
forward endpoint, clone the headers and set the two auth headers, merge
the original URL into the params, and delegate to the saved original
request method with everything else untouched. -/
def rewriteRequest (st : ProxyState) (method url : String) (kw : Kwargs) :
    Outcome :=
  let forward_url := (st.proxy_base_url).getD "" ++ FORWARD_ENDPOINT
  let tok := (st.proxy_token).getD ""
  Outcome.call st.original_request method forward_url
    { headers := some (injectAuth (kw.headers.getD []) tok)
      params := some (mergeParams kw.params url)
      other := kw.other }

/-- `_patched_request`: parse the URL (parse failure delegates unchanged),
decide interception, and either pass through unchanged or rewrite. -/
def patched_request (st : ProxyState) (method url : String) (kw : Kwargs) :
    Outcome :=
  match urlparseHostname url with
  | Except.error _ => Outcome.call st.original_request method url kw
  | Except.ok hostname =>
    if shouldIntercept st hostname then
      rewriteRequest st method url kw
    else
      Outcome.call st.original_request method url kw

/-! ### Projections and fixtures -/

/-- The params component of a delegated call. -/
def paramsOf : Outcome → Option Params
  | Outcome.call _ _ _ kw => kw.params

/-- Empty keyword arguments. -/
def kwEmpty : Kwargs :=
  { headers := none, params := none, other := [] }

/-- An active intercept-all configuration pointing at `https://fw.test`. -/
def stAll : ProxyState :=
  { original_request := Hook.fn 0
    proxy_base_url := some "https://fw.test"
    proxy_token := some "tok"
    active := true
    intercept_all := true
    intercepted_hosts := ∅
    forwarder_host := some "fw.test" }

/-- An active host-based configuration intercepting the default host. -/
def stHost : ProxyState :=
  { original_request := Hook.fn 0
    proxy_base_url := some "https://fw.test"
    proxy_token := some "tok"
    active := true
    intercept_all := false
    intercepted_hosts := {DEFAULT_API_HOST}
    forwarder_host := some "fw.test" }

/-- A caller keyword-argument record carrying one custom header. -/
def kwCustom : Kwargs :=
  { headers := some [("X-Custom", "value123")], params := none, other := [] }

/-- A plain activation argument record. -/
def argsHost : SetupArgs :=
  { proxy_token := some "tok"
    proxy_base_url := "https://fw.test"
    hosts := none
    intercept_all := false
    extra_hosts := none }

/-! ### Dict lemmas -/

theorem dlookup_none_of_not_found {β : Type} (k : String)
    (d : List (String × β)) (h : d.any (fun p => p.1 = k) = false) :
    dlookup d k = none := by
  induction d with
  | nil => rfl
  | cons p rest ih =>
    rcases p with ⟨a, b⟩
    simp only [List.any_cons, Bool.or_eq_false_iff] at h
    have ha : ¬(a = k) := by simpa using h.1
    simp only [dlookup, if_neg ha]
    exact ih h.2

theorem dlookup_overwrite_found {β : Type} (k : String) (v : β)
    (d : List (String × β)) (h : d.any (fun p => p.1 = k) = true) :
    dlookup (d.map (fun p => if p.1 = k then (k, v) else p)) k = some v := by
  induction d with
  | nil => simp at h
  | cons p rest ih =>
    rcases p with ⟨a, b⟩
    simp only [List.map_cons]
    by_cases ha : a = k
    · have h1 : (if ((a, b) : String × β).1 = k then (k, v) else (a, b)) = (k, v) := by
        simp [ha]
      rw [h1]
      simp [dlookup]
    · have h1 : (if ((a, b) : String × β).1 = k then (k, v) else (a, b)) = (a, b) := by
        simp [ha]
      rw [h1]
      have h2 : (rest.any fun p => p.1 = k) = true := by
        simp only [List.any_cons, Bool.or_eq_true, decide_eq_true_eq] at h
        rcases h with h | h
        · exact absurd h ha
        · simpa using h
      simp only [dlookup, if_neg ha]
      exact ih h2

theorem dlookup_overwrite_other {β : Type} (k k' : String) (v : β)
    (hne : k' ≠ k) (d : List (String × β)) :
    dlookup (d.map (fun p => if p.1 = k then (k, v) else p)) k' = dlookup d k' := by
  induction d with
  | nil => rfl
  | cons p rest ih =>
    rcases p with ⟨a, b⟩
    simp only [List.map_cons]
    by_cases ha : a = k
    · have h1 : (if ((a, b) : String × β).1 = k then (k, v) else (a, b)) = (k, v) := by
        simp [ha]
      rw [h1]
      have hk : ¬(k = k') := fun hh => hne hh.symm
      have hak : ¬(a = k') := ha ▸ hk
      simp only [dlookup, if_neg hk, if_neg hak]
      exact ih
    · have h1 : (if ((a, b) : String × β).1 = k then (k, v) else (a, b)) = (a, b) := by
        simp [ha]
      rw [h1]
      by_cases hak : a = k'
      · simp only [dlookup, if_pos hak]
      · simp only [dlookup, if_neg hak]
        exact ih

theorem dlookup_append_single {β : Type} (k k' : String) (v : β)
    (d : List (String × β)) :
    dlookup (d ++ [(k, v)]) k' =
      if k = k' then some ((dlookup d k').getD v) else dlookup d k' := by
  induction d with
  | nil =>
    by_cases hk : k = k'
    · simp [dlookup, hk]
    · simp [dlookup, hk]
  | cons p rest ih =>
    rcases p with ⟨a, b⟩
    by_cases ha : a = k'
    · simp [dlookup, ha]
    · simp only [List.cons_append, dlookup, if_neg ha]
      exact ih

theorem dlookup_dictSet_self {β : Type} (d : List (String × β)) (k : String)
    (v : β) : dlookup (dictSet d k v) k = some v := by
  unfold dictSet
  by_cases h : (d.any fun p => p.1 = k) = true
  · rw [if_pos h]
    exact dlookup_overwrite_found k v d h
  · rw [if_neg h]
    have hf : (d.any fun p => p.1 = k) = false := by
      cases hb : (d.any fun p => p.1 = k) with
      | false => rfl
      | true => exact absurd hb h
    have hnone : dlookup d k = none := dlookup_none_of_not_found k d hf
    rw [dlookup_append_single]
    simp [hnone]

theorem dlookup_dictSet_other {β : Type} (d : List (String × β))
    (k k' : String) (v : β) (hne : k' ≠ k) :
    dlookup (dictSet d k v) k' = dlookup d k' := by
  unfold dictSet
  by_cases h : (d.any fun p => p.1 = k) = true
  · rw [if_pos h]
    exact dlookup_overwrite_other k k' v hne d
  · rw [if_neg h]
    have hk : ¬(k = k') := fun hh => hne hh.symm
    rw [dlookup_append_single]
    simp [hk]

/-! ### Unfolding lemmas for the patched request -/

theorem patched_request_parse_ok (st : ProxyState) (method url : String)
    (kw : Kwargs) (h : Option String)
    (hp : urlparseHostname url = Except.ok h) :
    patched_request st method url kw =
      if shouldIntercept st h then rewriteRequest st method url kw
      else Outcome.call st.original_request method url kw := by
  unfold patched_request
  rw [hp]

theorem shouldIntercept_all_iff (st : ProxyState) (h : Option String)
    (hall : st.intercept_all = true) :
    shouldIntercept st h = true ↔ h ≠ st.forwarder_host := by
  simp [shouldIntercept, hall]

theorem shouldIntercept_hosts_iff (st : ProxyState) (h : Option String)
    (hall : st.intercept_all = false) :
    shouldIntercept st h = true ↔
      ∃ s, h = some s ∧ s ∈ st.intercepted_hosts := by
  cases h with
  | none => simp [shouldIntercept, hall]
  | some s => simp [shouldIntercept, hall]

/-- Decidable equality of `Except` results, for evaluating the URL parser
on concrete inputs. -/
instance exceptDecEq {ε α : Type} [DecidableEq ε] [DecidableEq α] :
    DecidableEq (Except ε α) := fun a b =>
  match a, b with
  | Except.ok x, Except.ok y =>
    if h : x = y then Decidable.isTrue (by rw [h])
    else Decidable.isFalse (by simp [h])
  | Except.error x, Except.error y =>
    if h : x = y then Decidable.isTrue (by rw [h])
    else Decidable.isFalse (by simp [h])
  | Except.ok _, Except.error _ => Decidable.isFalse (by simp)
  | Except.error _, Except.ok _ => Decidable.isFalse (by simp)

/-! ### Claim theorems -/

/-- C1: while the proxy is configured, the interception decision of the
patched hook is: in intercept-all mode, intercept iff the parsed hostname
differs from the cached forwarder hostname (loop guard); in host-based
mode, intercept iff the parsed hostname is a member of the configured
host set; and a request that is not intercepted is delegated to the
original request function with method, URL, headers, params and all
other options unchanged. -/
theorem C1_intercept_decision (st : ProxyState) (method url : String)
    (kw : Kwargs) (h : Option String)
    (hp : urlparseHostname url = Except.ok h) :
    (st.intercept_all = true →
      (shouldIntercept st h = true ↔ h ≠ st.forwarder_host)) ∧
    (st.intercept_all = false →
      (shouldIntercept st h = true ↔
        ∃ s, h = some s ∧ s ∈ st.intercepted_hosts)) ∧
    (shouldIntercept st h = false →
      patched_request st method url kw =
        Outcome.call st.original_request method url kw) := by
  refine ⟨fun hall => shouldIntercept_all_iff st h hall,
    fun hall => shouldIntercept_hosts_iff st h hall, fun hni => ?_⟩
  rw [patched_request_parse_ok st method url kw h hp]
  simp [hni]

/-- C1 witness: evaluated on the host-based fixture at the default host. -/
theorem C1_intercept_decision_witness :
    (stHost.intercept_all = true →
      (shouldIntercept stHost (some "api.telegram.org") = true ↔
        some "api.telegram.org" ≠ stHost.forwarder_host)) ∧
    (stHost.intercept_all = false →
      (shouldIntercept stHost (some "api.telegram.org") = true ↔
        ∃ s, some "api.telegram.org" = some s ∧ s ∈ stHost.intercepted_hosts)) ∧
    (shouldIntercept stHost (some "api.telegram.org") = false →
      patched_request stHost "GET" "https://api.telegram.org/bot123/getMe" kwEmpty =
        Outcome.call stHost.original_request "GET"
          "https://api.telegram.org/bot123/getMe" kwEmpty) :=
  C1_intercept_decision stHost "GET" "https://api.telegram.org/bot123/getMe"
    kwEmpty (some "api.telegram.org") (by decide)

/-- C3: activation with a falsy token raises `ValueError` and returns the
runtime — request hook slot and every configuration field — unchanged,
whatever the prior configuration was. -/
theorem C3_empty_token_rejected (rt : Runtime) (a : SetupArgs)
    (ht : tokenFalsy a.proxy_token = true) :
    setup_proxy a rt = (rt, some PyError.valueError) := by
  unfold setup_proxy
  simp [ht]

/-- C3 witness: an empty token against an already-active configuration. -/
theorem C3_empty_token_rejected_witness :
    setup_proxy
      { proxy_token := some ""
        proxy_base_url := "https://other.test"
        hosts := none
        intercept_all := true
        extra_hosts := none }
      { sessionRequest := Hook.patched, state := stHost } =
      ({ sessionRequest := Hook.patched, state := stHost },
        some PyError.valueError) :=
  C3_empty_token_rejected
    { sessionRequest := Hook.patched, state := stHost }
    { proxy_token := some ""
      proxy_base_url := "https://other.test"
      hosts := none
      intercept_all := true
      extra_hosts := none }
    (by decide)

/-- C5: activating from an inactive state with a truthy token and then
deactivating restores the pre-activation request function exactly, leaves
the active flag false and clears the held original-function reference. -/
theorem C5_activate_deactivate_roundtrip (rt : Runtime) (a : SetupArgs)
    (hina : rt.state.active = false) (ht : tokenFalsy a.proxy_token = false) :
    (disable_proxy (setup_proxy a rt).1).sessionRequest = rt.sessionRequest ∧
    (disable_proxy (setup_proxy a rt).1).state.active = false ∧
    (disable_proxy (setup_proxy a rt).1).state.original_request = Hook.noneV := by
  unfold setup_proxy disable_proxy
  simp [ht, hina]

/-- C5 witness: round trip from the fresh process. -/
theorem C5_activate_deactivate_roundtrip_witness :
    (disable_proxy (setup_proxy argsHost initialRuntime).1).sessionRequest =
      initialRuntime.sessionRequest ∧
    (disable_proxy (setup_proxy argsHost initialRuntime).1).state.active = false ∧
    (disable_proxy (setup_proxy argsHost initialRuntime).1).state.original_request =
      Hook.noneV :=
  C5_activate_deactivate_roundtrip initialRuntime argsHost (by decide) (by decide)

/-- C7: when URL parsing fails, the patched hook delegates to the original
request function with every argument unmodified; the hook itself is a
total function into delegated calls, so it raises nothing of its own. -/
theorem C7_parse_failure_passthrough (st : ProxyState) (method url : String)
    (kw : Kwargs) (he : urlparseHostname url = Except.error ()) :
    patched_request st method url kw =
      Outcome.call st.original_request method url kw := by
  unfold patched_request
  rw [he]

/-- C7 witness: an unmatched-bracket URL (invalid IPv6 netloc). -/
theorem C7_parse_failure_passthrough_witness :
    patched_request stAll "GET" "http://[::1" kwEmpty =
      Outcome.call stAll.original_request "GET" "http://[::1" kwEmpty :=
  C7_parse_failure_passthrough stAll "GET" "http://[::1" kwEmpty (by decide)

/-- C8: re-activating while already active replaces the token, base URL,
host set, intercept mode and cached forwarder hostname with the newly
resolved values, raises nothing, and leaves the active flag, the saved
original request function and the installed hook slot unchanged. -/
theorem C8_reactivation_updates_config (rt : Runtime) (a : SetupArgs)
    (hact : rt.state.active = true) (ht : tokenFalsy a.proxy_token = false) :
    (setup_proxy a rt).1.sessionRequest = rt.sessionRequest ∧
    (setup_proxy a rt).1.state.active = true ∧
    (setup_proxy a rt).1.state.original_request = rt.state.original_request ∧
    (setup_proxy a rt).1.state.proxy_token = a.proxy_token ∧
    (setup_proxy a rt).1.state.proxy_base_url =
      some (normalizeBase a.proxy_base_url) ∧
    (setup_proxy a rt).1.state.intercept_all = a.intercept_all ∧
    (setup_proxy a rt).1.state.intercepted_hosts =
      resolveHosts a.intercept_all a.hosts a.extra_hosts ∧
    (setup_proxy a rt).1.state.forwarder_host =
      forwarderHostOf (normalizeBase a.proxy_base_url) ∧
    (setup_proxy a rt).2 = none := by
  unfold setup_proxy
  simp [ht, hact]

/-- C8 witness: re-activation over the active host-based fixture. -/
theorem C8_reactivation_updates_config_witness :
    (setup_proxy argsHost { sessionRequest := Hook.patched, state := stHost }).1.sessionRequest =
      ({ sessionRequest := Hook.patched, state := stHost } : Runtime).sessionRequest ∧
    (setup_proxy argsHost { sessionRequest := Hook.patched, state := stHost }).1.state.active = true ∧
    (setup_proxy argsHost { sessionRequest := Hook.patched, state := stHost }).1.state.original_request =
      stHost.original_request ∧
    (setup_proxy argsHost { sessionRequest := Hook.patched, state := stHost }).1.state.proxy_token =
      argsHost.proxy_token ∧
    (setup_proxy argsHost { sessionRequest := Hook.patched, state := stHost }).1.state.proxy_base_url =
      some (normalizeBase argsHost.proxy_base_url) ∧
    (setup_proxy argsHost { sessionRequest := Hook.patched, state := stHost }).1.state.intercept_all =
      argsHost.intercept_all ∧
    (setup_proxy argsHost { sessionRequest := Hook.patched, state := stHost }).1.state.intercepted_hosts =
      resolveHosts argsHost.intercept_all argsHost.hosts argsHost.extra_hosts ∧
    (setup_proxy argsHost { sessionRequest := Hook.patched, state := stHost }).1.state.forwarder_host =
      forwarderHostOf (normalizeBase argsHost.proxy_base_url) ∧
    (setup_proxy argsHost { sessionRequest := Hook.patched, state := stHost }).2 = none :=
  C8_reactivation_updates_config
    { sessionRequest := Hook.patched, state := stHost } argsHost rfl (by decide)

/-- The invariant of C9: whenever the active flag is set, the stored token
is truthy (neither absent nor the empty string). -/
def TokenInv (rt : Runtime) : Prop :=
  rt.state.active = true → tokenFalsy rt.state.proxy_token = false

/-- C9: the token invariant holds initially and is preserved by
`setup_proxy` and `disable_proxy`; the patched hook never writes the
state (it is a pure function of it), so it preserves every state
invariant. -/
theorem C9_active_token_nonempty :
    TokenInv initialRuntime ∧
    (∀ rt a, TokenInv rt → TokenInv (setup_proxy a rt).1) ∧
    (∀ rt, TokenInv rt → TokenInv (disable_proxy rt)) := by
  refine ⟨?_, ?_, ?_⟩
  · intro h
    simp [initialRuntime, initialState] at h
  · intro rt a hinv hact
    by_cases ht : tokenFalsy a.proxy_token = true
    · have hr : (setup_proxy a rt).1 = rt := by
        unfold setup_proxy
        rw [if_pos ht]
      rw [hr] at hact ⊢
      exact hinv hact
    · have htf : tokenFalsy a.proxy_token = false := by
        cases hb : tokenFalsy a.proxy_token with
        | false => rfl
        | true => exact absurd hb ht
      unfold setup_proxy
      rw [if_neg ht]
      by_cases ha : rt.state.active = true
      · rw [if_pos ha]
        simpa using htf
      · rw [if_neg ha]
        simpa using htf
  · intro rt hinv hact
    unfold disable_proxy at hact
    by_cases ha : rt.state.active = true
    · rw [if_pos ha] at hact
      exact absurd hact (by simp)
    · rw [if_neg ha] at hact
      unfold disable_proxy
      rw [if_neg ha]
      exact hinv hact

/-- C9 witness: the invariant after a concrete activation. -/
theorem C9_active_token_nonempty_witness :
    TokenInv (setup_proxy argsHost initialRuntime).1 :=
  C9_active_token_nonempty.2.1 initialRuntime argsHost
    (fun h => by simp [initialRuntime, initialState] at h)

/-- C10: in intercept-all mode, a request whose URL parses to no hostname
is intercepted and rewritten whenever the cached forwarder hostname is
present, and is passed through unchanged exactly when the cached
forwarder hostname is also absent (parsed hostname equals cached
hostname, both `None`). -/
theorem C10_hostless_loop_guard (st : ProxyState) (method url : String)
    (kw : Kwargs) (hp : urlparseHostname url = Except.ok none)
    (hall : st.intercept_all = true) :
    (st.forwarder_host ≠ none →
      shouldIntercept st none = true ∧
      patched_request st method url kw = rewriteRequest st method url kw) ∧
    (st.forwarder_host = none →
      shouldIntercept st none = false ∧
      patched_request st method url kw =
        Outcome.call st.original_request method url kw) := by
  constructor
  · intro hf
    have hi : shouldIntercept st none = true :=
      (shouldIntercept_all_iff st none hall).mpr (Ne.symm hf)
    refine ⟨hi, ?_⟩
    rw [patched_request_parse_ok st method url kw none hp]
    simp [hi]
  · intro hf
    have hi : shouldIntercept st none = false := by
      simp [shouldIntercept, hall, hf]
    refine ⟨hi, ?_⟩
    rw [patched_request_parse_ok st method url kw none hp]
    simp [hi]

/-- C10 witness: a relative URL under the intercept-all fixture. -/
theorem C10_hostless_loop_guard_witness :
    (stAll.forwarder_host ≠ none →
      shouldIntercept stAll none = true ∧
      patched_request stAll "GET" "/relative/path" kwEmpty =
        rewriteRequest stAll "GET" "/relative/path" kwEmpty) ∧
    (stAll.forwarder_host = none →
      shouldIntercept stAll none = false ∧
      patched_request stAll "GET" "/relative/path" kwEmpty =
        Outcome.call stAll.original_request "GET" "/relative/path" kwEmpty) :=
  C10_hostless_loop_guard stAll "GET" "/relative/path" kwEmpty (by decide) rfl

/-- C2 counterexample: with query parameters supplied as the raw encoded
byte string `a=&b=1`, interception drops the blank-valued caller
parameter `a` entirely — the rewritten params hold only `b` and `url` —
so not every caller-supplied query parameter is preserved. -/
theorem C2_blank_param_dropped :
    patched_request stHost "GET" "https://api.telegram.org/x"
      { headers := none, params := some (Params.bytes "a=&b=1"), other := [] } =
      Outcome.call (Hook.fn 0) "GET" "https://fw.test/forward"
        { headers := some [("Authorization", "Bearer tok"), ("X-Api-Token", "tok")]
          params := some (Params.dict
            [("b", PVal.str "1"), ("url", PVal.str "https://api.telegram.org/x")])
          other := [] } ∧
    dlookup
      [("b", PVal.str "1"), ("url", PVal.str "https://api.telegram.org/x")]
      "a" = none := by
  constructor
  · decide
  · rfl

/-- C2 (amended): for every intercepted request, the rewritten query
parameters carry the original unrewritten URL under `url`; a mapping is
cloned with `url` added or overwritten and every other key's value
preserved; a sequence is cloned with the pair (`url`, original URL)
appended; an absent params argument becomes a mapping holding only
`url`; and a raw encoded byte query string is decoded by standard
query-string parsing — which drops parameters with a blank value and
bare tokens without an equals sign — folded into a mapping, and `url`
added. -/
theorem C2_params_merge (st : ProxyState) (method url : String) (kw : Kwargs)
    (h : Option String) (hp : urlparseHostname url = Except.ok h)
    (hi : shouldIntercept st h = true) :
    paramsOf (patched_request st method url kw) =
      some (mergeParams kw.params url) ∧
    (kw.params = none →
      mergeParams kw.params url = Params.dict [("url", PVal.str url)]) ∧
    (∀ d, kw.params = some (Params.dict d) →
      mergeParams kw.params url =
        Params.dict (dictSet d "url" (PVal.str url)) ∧
      dlookup (dictSet d "url" (PVal.str url)) "url" = some (PVal.str url) ∧
      (∀ k, k ≠ "url" →
        dlookup (dictSet d "url" (PVal.str url)) k = dlookup d k)) ∧
    (∀ l, kw.params = some (Params.seq l) →
      mergeParams kw.params url = Params.seq (l ++ [("url", PVal.str url)])) ∧
    (∀ b, kw.params = some (Params.bytes b) →
      mergeParams kw.params url =
        Params.dict (dictSet (foldQS (parse_qs b)) "url" (PVal.str url)) ∧
      dlookup (dictSet (foldQS (parse_qs b)) "url" (PVal.str url)) "url" =
        some (PVal.str url)) := by
  refine ⟨?_, ?_, ?_, ?_, ?_⟩
  · rw [patched_request_parse_ok st method url kw h hp]
    simp [hi, rewriteRequest, paramsOf]
  · intro h0
    simp [mergeParams, h0]
  · intro d hd
    refine ⟨by simp [mergeParams, hd], dlookup_dictSet_self d "url" (PVal.str url),
      fun k hk => dlookup_dictSet_other d "url" k (PVal.str url) hk⟩
  · intro l hl
    simp [mergeParams, hl]
  · intro b hb
    exact ⟨by simp [mergeParams, hb],
      dlookup_dictSet_self (foldQS (parse_qs b)) "url" (PVal.str url)⟩

/-- C2 witness: a mapping-shaped params argument under interception. -/
theorem C2_params_merge_witness :
    paramsOf (patched_request stHost "GET"
        "https://api.telegram.org/bot123/getUpdates"
        { headers := none
          params := some (Params.dict [("offset", PVal.str "100")])
          other := [] }) =
      some (mergeParams (some (Params.dict [("offset", PVal.str "100")]))
        "https://api.telegram.org/bot123/getUpdates") ∧
    (some (Params.dict [("offset", PVal.str "100")]) = none →
      mergeParams (some (Params.dict [("offset", PVal.str "100")]))
        "https://api.telegram.org/bot123/getUpdates" =
        Params.dict [("url", PVal.str "https://api.telegram.org/bot123/getUpdates")]) ∧
    (∀ d, some (Params.dict [("offset", PVal.str "100")]) = some (Params.dict d) →
      mergeParams (some (Params.dict [("offset", PVal.str "100")]))
        "https://api.telegram.org/bot123/getUpdates" =
        Params.dict (dictSet d "url"
          (PVal.str "https://api.telegram.org/bot123/getUpdates")) ∧
      dlookup (dictSet d "url"
          (PVal.str "https://api.telegram.org/bot123/getUpdates")) "url" =
        some (PVal.str "https://api.telegram.org/bot123/getUpdates") ∧
      (∀ k, k ≠ "url" →
        dlookup (dictSet d "url"
          (PVal.str "https://api.telegram.org/bot123/getUpdates")) k =
          dlookup d k)) ∧
    (∀ l, some (Params.dict [("offset", PVal.str "100")]) = some (Params.seq l) →
      mergeParams (some (Params.dict [("offset", PVal.str "100")]))
        "https://api.telegram.org/bot123/getUpdates" =
        Params.seq (l ++ [("url",
          PVal.str "https://api.telegram.org/bot123/getUpdates")])) ∧
    (∀ b, some (Params.dict [("offset", PVal.str "100")]) = some (Params.bytes b) →
      mergeParams (some (Params.dict [("offset", PVal.str "100")]))
        "https://api.telegram.org/bot123/getUpdates" =
        Params.dict (dictSet (foldQS (parse_qs b)) "url"
          (PVal.str "https://api.telegram.org/bot123/getUpdates")) ∧
      dlookup (dictSet (foldQS (parse_qs b)) "url"
          (PVal.str "https://api.telegram.org/bot123/getUpdates")) "url" =
        some (PVal.str "https://api.telegram.org/bot123/getUpdates")) :=
  C2_params_merge stHost "GET" "https://api.telegram.org/bot123/getUpdates"
    { headers := none
      params := some (Params.dict [("offset", PVal.str "100")])
      other := [] }
    (some "api.telegram.org") (by decide) (by decide)

/-- C4: for every intercepted request, the effective URL is the stored
base URL concatenated with `/forward`, and the effective headers are the
caller's headers (cloned, the caller's mapping untouched) with exactly
the `Authorization` bearer header and the `X-Api-Token` header added or
overwritten; every other header key keeps the caller's value, and no
other key is introduced. -/
theorem C4_forward_url_and_headers (st : ProxyState) (method url : String)
    (kw : Kwargs) (h : Option String) (tok base : String)
    (hp : urlparseHostname url = Except.ok h)
    (hi : shouldIntercept st h = true)
    (htok : st.proxy_token = some tok)
    (hbase : st.proxy_base_url = some base) :
    patched_request st method url kw =
      Outcome.call st.original_request method (base ++ FORWARD_ENDPOINT)
        { headers := some (injectAuth (kw.headers.getD []) tok)
          params := some (mergeParams kw.params url)
          other := kw.other } ∧
    dlookup (injectAuth (kw.headers.getD []) tok) "Authorization" =
      some ("Bearer " ++ tok) ∧
    dlookup (injectAuth (kw.headers.getD []) tok) "X-Api-Token" = some tok ∧
    (∀ k, k ≠ "Authorization" → k ≠ "X-Api-Token" →
      dlookup (injectAuth (kw.headers.getD []) tok) k =
        dlookup (kw.headers.getD []) k) := by
  refine ⟨?_, ?_, ?_, ?_⟩
  · rw [patched_request_parse_ok st method url kw h hp]
    simp [hi, rewriteRequest, htok, hbase]
  · unfold injectAuth
    rw [dlookup_dictSet_other _ "X-Api-Token" "Authorization" tok (by decide)]
    exact dlookup_dictSet_self _ "Authorization" ("Bearer " ++ tok)
  · exact dlookup_dictSet_self _ "X-Api-Token" tok
  · intro k hk1 hk2
    unfold injectAuth
    rw [dlookup_dictSet_other _ "X-Api-Token" k tok hk2]
    exact dlookup_dictSet_other _ "Authorization" k ("Bearer " ++ tok) hk1

/-- C4 witness: a caller header alongside the injected pair. -/
theorem C4_forward_url_and_headers_witness :
    patched_request stHost "GET" "https://api.telegram.org/bot123/getMe" kwCustom =
      Outcome.call stHost.original_request "GET"
        ("https://fw.test" ++ FORWARD_ENDPOINT)
        { headers := some (injectAuth (kwCustom.headers.getD []) "tok")
          params := some (mergeParams kwCustom.params
            "https://api.telegram.org/bot123/getMe")
          other := kwCustom.other } ∧
    dlookup (injectAuth (kwCustom.headers.getD []) "tok") "Authorization" =
      some ("Bearer " ++ "tok") ∧
    dlookup (injectAuth (kwCustom.headers.getD []) "tok") "X-Api-Token" =
      some "tok" ∧
    (∀ k, k ≠ "Authorization" → k ≠ "X-Api-Token" →
      dlookup (injectAuth (kwCustom.headers.getD []) "tok") k =
        dlookup (kwCustom.headers.getD []) k) :=
  C4_forward_url_and_headers stHost "GET"
    "https://api.telegram.org/bot123/getMe" kwCustom
    (some "api.telegram.org") "tok" "https://fw.test" (by decide) (by decide)
    rfl rfl

/-- C6 (code bug): `get_intercepted_hosts` documents an empty snapshot
whenever the proxy is inactive, but `disable_proxy` never clears the
stored host set, so after a host-based activation followed by a
deactivation the snapshot still holds the activated host. -/
theorem C6_stale_hosts_after_disable :
    is_active (disable_proxy (setup_proxy
      { proxy_token := some "t"
        proxy_base_url := DEFAULT_PROXY_BASE_URL
        hosts := some ["example.com"]
        intercept_all := false
        extra_hosts := none } initialRuntime).1).state = false ∧
    get_intercepted_hosts (disable_proxy (setup_proxy
      { proxy_token := some "t"
        proxy_base_url := DEFAULT_PROXY_BASE_URL
        hosts := some ["example.com"]
        intercept_all := false
        extra_hosts := none } initialRuntime).1).state = {"example.com"} := by
  constructor
  · decide
  · decide

end ReqFwd
